import Mathlib

/-!
Shallow embedding of the waveform/beatgrid rendering engine of `gui.py`
(python-prodj-link).

Painting is modelled by recording the sequence of drawing primitives
(`DrawOp`) that the Qt painter would execute, in source order.  Python
floats are modelled as rationals; Python `int(...)` on a float truncates
toward zero, which `pyInt` captures; Python `//` on non-negative integers
is `Nat` division.  Each widget's mutable instance fields become a state
structure, and each method becomes a state-passing function.  A returned
`Bool` records whether the method requested a redraw (`self.update()`),
respectively whether it logged an error.
-/

namespace ProDJGui

/-- Colors used by the renderer: the Qt color constants appearing in
`gui.py` plus `QColor(r, g, b)` triples. -/
inductive Color where
  | black
  | white
  | red
  | yellow
  | rgb (r g b : ℤ)
deriving DecidableEq, Repr

/-- Drawing primitives issued to a `QPainter`, recorded with the pen/brush
color in effect: `fill c` is `QPixmap.fill(c)`, `line` is
`QPainter.drawLine`, `fillRect` is `QPainter.fillRect`, and `rect` is
`QPainter.drawRect` (outline only). -/
inductive DrawOp where
  | fill (c : Color)
  | line (x1 y1 x2 y2 : ℤ) (c : Color)
  | fillRect (x y w h : ℤ) (c : Color)
  | rect (x y w h : ℤ) (c : Color)
deriving DecidableEq, Repr

/-- `true` exactly on `fillRect` operations (the beat ticks and the filled
beat-bar boxes are the only `fillRect`s the painters issue). -/
def DrawOp.isFillRect : DrawOp → Bool
  | .fillRect _ _ _ _ _ => true
  | _ => false

/-- `true` exactly on `rect` (outline) operations. -/
def DrawOp.isRect : DrawOp → Bool
  | .rect _ _ _ _ _ => true
  | _ => false

/-- A pixmap: its dimensions and the ordered drawing operations executed
into it. -/
structure Pixmap where
  width : ℤ
  height : ℤ
  ops : List DrawOp
deriving DecidableEq, Repr

/-- Python `int(...)` applied to a float (here: rational): truncation
toward zero. -/
def pyInt (q : ℚ) : ℤ := if 0 ≤ q then ⌊q⌋ else ⌈q⌉

/-- One parsed beat-grid entry: `beat` is the beat-in-bar number
(`beat["beat"]` in `gui.py`, 1 marks a downbeat) and `time` the beat onset
in milliseconds (`beat["time"]`). -/
structure Beat where
  beat : ℕ
  time : ℕ
deriving DecidableEq, Repr

/-- The structure produced by the external beat-grid parser, as consumed
by `gui.py` (`self.beatgrid_data["beats"]`). -/
structure Beatgrid where
  beats : List Beat
deriving DecidableEq, Repr

namespace WaveformWidget

/-- `self.waveform_height = 75` in `WaveformWidget.__init__`. -/
def waveform_height : ℤ := 75

/-- `self.waveform_center = self.waveform_height//2 = 37`. -/
def waveform_center : ℤ := 37

/-- `self.waveform_px_per_s = 150`. -/
def waveform_px_per_s : ℕ := 150

/-- The mutable instance fields of `WaveformWidget`.  `waveform_data`
holds the byte buffer after the 20-byte header slice (`None` and the empty
buffer behave identically in every guard, so both are `[]`);
`beatgrid_data` is the parsed beat grid or `none`. -/
structure State where
  waveform_data : List ℕ
  beatgrid_data : Option Beatgrid
  pixmap : Option Pixmap
  offset : ℤ
  position_marker : ℚ
  frames : ℤ
  position_marker_offset : ℤ
deriving DecidableEq, Repr

/-- `WaveformWidget.setPositionMarkerOffset`: stores the relative marker
position and derives `position_marker_offset = int(relative*self.frames)`. -/
def setPositionMarkerOffset (s : State) (relative : ℚ) : State :=
  { s with position_marker := relative,
           position_marker_offset := pyInt (relative * (s.frames : ℚ)) }

/-- `WaveformWidget.setFrameCount`: stores the frame count and recomputes
the marker offset from the stored relative position. -/
def setFrameCount (s : State) (frames : ℤ) : State :=
  setPositionMarkerOffset { s with frames := frames } s.position_marker

/-- The bar-drawing loop of `renderWaveformPixmap`: for each byte index
`data_x`, `height = byte & 0x1f`, `whiteness = byte >> 5`, and a vertical
line is drawn at `draw_x = data_x + position_marker_offset` from
`center-height` to `center+height` in `QColor(36*whiteness, 36*whiteness,
255)`. -/
def barOps (data : List ℕ) (pmo : ℤ) : List DrawOp :=
  (List.range data.length).map fun data_x =>
    let b := data.getD data_x 0
    let height : ℕ := b &&& 0x1f
    let whiteness : ℕ := b >>> 5
    .line (pmo + data_x) (waveform_center - height)
          (pmo + data_x) (waveform_center + height)
          (.rgb (36 * whiteness) (36 * whiteness) 255)

/-- The beat-tick loop of `renderWaveformPixmap`: for each beat, downbeats
(`beat == 1`) get a red brush and tick length 8, others white and 5;
`draw_x = beat["time"]*150//1000 + position_marker_offset`, and two 4-wide
rectangles are filled at the top and bottom edges. -/
def tickOps (beats : List Beat) (pmo : ℤ) : List DrawOp :=
  beats.flatMap fun beat =>
    let brush : Color := if beat.beat = 1 then .red else .white
    let len : ℤ := if beat.beat = 1 then 8 else 5
    let draw_x : ℤ := (beat.time * waveform_px_per_s / 1000 : ℕ) + pmo
    [ .fillRect (draw_x - 1) 0 4 len brush,
      .fillRect (draw_x - 1) (waveform_height - len) 4 len brush ]

/-- `WaveformWidget.renderWaveformPixmap`: allocates a pixmap of width
`position_marker_offset + len(waveform_data)` and height 75, fills it
black, draws the white center line across the full width, then — only if
the waveform buffer is non-empty — the amplitude bars followed by, only if
a beat grid is present, the beat ticks. -/
def renderWaveformPixmap (wd : List ℕ) (bg : Option Beatgrid) (pmo : ℤ) : Pixmap :=
  let width : ℤ := pmo + wd.length
  { width := width
    height := waveform_height
    ops := [.fill .black, .line 0 waveform_center width waveform_center .white] ++
      (if wd ≠ [] then
        barOps wd pmo ++
          (match bg with
           | some g => tickOps g.beats pmo
           | none => [])
      else []) }

/-- `WaveformWidget.setData`: drops the 20-byte header, stores the rest
and re-renders the composited pixmap (the transient `self.pixmap = None`
is immediately overwritten by `renderWaveformPixmap`). -/
def setData (s : State) (data : List ℕ) : State :=
  let wd := data.drop 20
  { s with waveform_data := wd,
           pixmap := some (renderWaveformPixmap wd s.beatgrid_data s.position_marker_offset) }

/-- `WaveformWidget.setBeatgridData`.  Modelled from the spec:
`Beatgrid.parse` lives in `packets.py`, which is not among the given
sources; per the spec it yields a structured list of beat entries or
fails, so the parse outcome is passed in as an `Except` value.  On failure
the widget logs the error (the returned `Bool`) and stores `None`; in
either case it re-renders only when waveform data is present. -/
def setBeatgridData (s : State) (parsed : Except String Beatgrid) : State × Bool :=
  let r : Option Beatgrid × Bool :=
    match parsed with
    | .ok g => (some g, false)
    | .error _ => (none, true)
  let s1 : State := { s with beatgrid_data := r.1 }
  (if s1.waveform_data ≠ [] then
    { s1 with pixmap := some (renderWaveformPixmap s1.waveform_data r.1 s1.position_marker_offset) }
   else s1, r.2)

/-- `self.startTimer(40)` in `WaveformWidget.__init__`: the refresh timer
period in milliseconds. -/
def timerInterval : ℕ := 40

/-- `WaveformWidget.timerEvent`: advances the scroll offset by
`int(142*0.04)` and requests a redraw (`self.update()`, the returned
`Bool`). -/
def timerEvent (s : State) : State × Bool :=
  ({ s with offset := s.offset + pyInt ((142 : ℚ) * (4 / 100)) }, true)

/-- The state after `WaveformWidget.__init__`: no data, no beat grid, no
pixmap, offset 0, `position_marker = 0.5`, then `setFrameCount(150*10)`. -/
def initState : State :=
  setFrameCount
    { waveform_data := []
      beatgrid_data := none
      pixmap := none
      offset := 0
      position_marker := 1/2
      frames := 0
      position_marker_offset := 0 }
    (waveform_px_per_s * 10)

end WaveformWidget

namespace PreviewWaveformWidget

/-- The bar-drawing loop of `drawPreviewWaveformPixmap`: for each of the
400 columns `x`, `height = data[2*x]`, `whiteness = data[2*x+1] + 1`, and
a vertical line is drawn from `(x, 31)` up to `(x, 31-height)` in
`QColor(36*whiteness, 36*whiteness, 255)`. -/
def previewBarOps (d : List ℕ) : List DrawOp :=
  (List.range 400).map fun x =>
    let height : ℕ := d.getD (2 * x) 0
    let whiteness : ℕ := d.getD (2 * x + 1) 0 + 1
    .line x 31 x ((31 : ℤ) - height) (.rgb (36 * whiteness) (36 * whiteness) 255)

/-- `PreviewWaveformWidget.drawPreviewWaveformPixmap`: a 400×34 pixmap,
filled black; the 400 bars are drawn only when `self.data` is truthy and
at least `400*2` bytes long; the white base line from `(0,33)` to
`(399,33)` is always drawn. -/
def drawPreviewWaveformPixmap (data : Option (List ℕ)) : Pixmap :=
  { width := 400
    height := 34
    ops := [.fill .black] ++
      (match data with
       | some d => if d ≠ [] ∧ 400 * 2 ≤ d.length then previewBarOps d else []
       | none => []) ++
      [.line 0 33 399 33 .white] }

/-- `PreviewWaveformWidget.setProgress`: `new_position = int(400*relative)`;
the stored position is replaced and a redraw requested (the `Bool`) only
when it differs from the current one. -/
def setProgress (position : ℤ) (relative : ℚ) : ℤ × Bool :=
  let new_position := pyInt ((400 : ℚ) * relative)
  if new_position ≠ position then (new_position, true) else (position, false)

end PreviewWaveformWidget

namespace BeatBarWidget

/-- `BeatBarWidget.setBeat`: stores the new beat and requests a redraw
only when it differs from the current one. -/
def setBeat (current beat : ℤ) : ℤ × Bool :=
  if beat ≠ current then (beat, true) else (current, false)

/-- `BeatBarWidget.paintEvent` for a widget of size `w × h` and current
beat `beat`: `box_gap = 6`, `box_width = (w-1-3*6)//4` (Python floor
division), `box_height = h-1`; for `x` in `0..3` the outline is drawn at
`draw_x = x*(box_width+box_gap)`, and the box is additionally filled
yellow exactly when `x == beat-1`. -/
def paintOps (w h beat : ℤ) : List DrawOp :=
  let box_gap : ℤ := 6
  let box_width : ℤ := (w - 1 - 3 * box_gap).fdiv 4
  let box_height : ℤ := h - 1
  (List.range 4).flatMap fun x =>
    let draw_x : ℤ := (x : ℤ) * (box_width + box_gap)
    [DrawOp.rect draw_x 0 box_width box_height .yellow] ++
      (if (x : ℤ) = beat - 1 then
        [DrawOp.fillRect draw_x 0 box_width box_height .yellow]
      else [])

end BeatBarWidget

/-- Python `int()` truncation agrees with the floor on non-negative
values. -/
theorem pyInt_eq_floor (q : ℚ) (h : 0 ≤ q) : pyInt q = ⌊q⌋ := if_pos h

open WaveformWidget PreviewWaveformWidget BeatBarWidget

/-- Claim C1: `setData` skips the first 20 bytes of the detail waveform
buffer; every remaining byte `b` yields exactly one bar, in input order,
with amplitude `b &&& 0x1f ∈ [0,31]` and color level `b >>> 5 ∈ [0,7]`
(the latter since bytes are < 256); no byte value is rejected — the bar
list has one entry per byte. -/
theorem setData_decodes_every_byte (s : State) (data : List ℕ)
    (hb : ∀ b ∈ data, b < 256) :
    (setData s data).waveform_data = data.drop 20 ∧
    (setData s data).pixmap =
      some (renderWaveformPixmap (data.drop 20) s.beatgrid_data s.position_marker_offset) ∧
    (barOps (data.drop 20) s.position_marker_offset).length = (data.drop 20).length ∧
    ∀ i, i < (data.drop 20).length →
      (data.drop 20).getD i 0 &&& 0x1f ≤ 31 ∧
      (data.drop 20).getD i 0 >>> 5 ≤ 7 ∧
      (barOps (data.drop 20) s.position_marker_offset)[i]? =
        some (.line (s.position_marker_offset + i)
                (waveform_center - (((data.drop 20).getD i 0 &&& 0x1f : ℕ) : ℤ))
                (s.position_marker_offset + i)
                (waveform_center + (((data.drop 20).getD i 0 &&& 0x1f : ℕ) : ℤ))
                (.rgb (36 * ((data.drop 20).getD i 0 >>> 5))
                      (36 * ((data.drop 20).getD i 0 >>> 5)) 255)) := by
  refine ⟨rfl, rfl, by simp [barOps], ?_⟩
  intro i hi
  have hmem : (data.drop 20).getD i 0 ∈ data.drop 20 := by
    rw [List.getD_eq_getElem _ _ hi]
    exact List.getElem_mem hi
  have hlt : (data.drop 20).getD i 0 < 256 :=
    hb _ (List.mem_of_mem_drop hmem)
  have hi2 : i < (data.drop 20).length := hi
  refine ⟨Nat.and_le_right, ?_, ?_⟩
  · rw [Nat.shiftRight_eq_div_pow]
    omega
  · rw [barOps, List.getElem?_map, List.getElem?_range hi2, Option.map_some']
    push_cast
    rfl

/-- Claim C1 witness: a concrete 25-byte buffer (20-byte header plus five
samples). -/
theorem setData_decodes_every_byte_witness :
    (setData initState (List.replicate 20 0 ++ [0, 37, 200, 255, 31])).waveform_data
      = (List.replicate 20 0 ++ [0, 37, 200, 255, 31]).drop 20 :=
  (setData_decodes_every_byte initState
    (List.replicate 20 0 ++ [0, 37, 200, 255, 31]) (by decide)).1

/-- Claim C2: for every beat marker present while compositing (waveform
data non-empty, beat grid present), two 4-px-wide ticks are filled at the
top (`y = 0`) and bottom (`y = 75 - length`) edges of the composited
image, horizontally spanning `[x-1, x+3)` for
`x = beat.time * 150 / 1000 + position_marker_offset` (integer division is
the floor); downbeats (`beat = 1`) are red with tick length 8, all other
beats white with tick length 5. -/
theorem render_beat_ticks (wd : List ℕ) (g : Beatgrid) (pmo : ℤ) (beat : Beat)
    (hmem : beat ∈ g.beats) (hwd : wd ≠ []) :
    (beat.beat = 1 →
      DrawOp.fillRect (((beat.time * waveform_px_per_s / 1000 : ℕ) : ℤ) + pmo - 1) 0 4 8 .red
        ∈ (renderWaveformPixmap wd (some g) pmo).ops ∧
      DrawOp.fillRect (((beat.time * waveform_px_per_s / 1000 : ℕ) : ℤ) + pmo - 1)
          (waveform_height - 8) 4 8 .red
        ∈ (renderWaveformPixmap wd (some g) pmo).ops) ∧
    (beat.beat ≠ 1 →
      DrawOp.fillRect (((beat.time * waveform_px_per_s / 1000 : ℕ) : ℤ) + pmo - 1) 0 4 5 .white
        ∈ (renderWaveformPixmap wd (some g) pmo).ops ∧
      DrawOp.fillRect (((beat.time * waveform_px_per_s / 1000 : ℕ) : ℤ) + pmo - 1)
          (waveform_height - 5) 4 5 .white
        ∈ (renderWaveformPixmap wd (some g) pmo).ops) := by
  constructor
  · intro h1
    constructor <;>
      · simp only [renderWaveformPixmap, List.mem_append, if_pos hwd]
        right; right
        simp only [tickOps, List.mem_flatMap]
        exact ⟨beat, hmem, by simp [h1]⟩
  · intro h1
    constructor <;>
      · simp only [renderWaveformPixmap, List.mem_append, if_pos hwd]
        right; right
        simp only [tickOps, List.mem_flatMap]
        exact ⟨beat, hmem, by simp [h1]⟩

/-- Claim C2 witness: a downbeat at 1000 ms with marker offset 0 gets its
red top tick at `x = 1000*150/1000 = 150` (tick rectangle starting at
149). -/
theorem render_beat_ticks_witness :
    DrawOp.fillRect (((1000 * waveform_px_per_s / 1000 : ℕ) : ℤ) + 0 - 1) 0 4 8 .red
      ∈ (renderWaveformPixmap [7] (some ⟨[⟨1, 1000⟩]⟩) 0).ops :=
  ((render_beat_ticks [7] ⟨[⟨1, 1000⟩]⟩ 0 ⟨1, 1000⟩ (by decide) (by decide)).1 rfl).1

/-- Claim C10: for every buffer of at most 20 bytes, `setData` leaves an
empty decoded sample sequence and builds the composited image with width
exactly `position_marker_offset`, containing only the black background
fill and the white center line — no bars and no beat ticks. -/
theorem setData_short_buffer (s : State) (data : List ℕ) (h : data.length ≤ 20) :
    (setData s data).waveform_data = [] ∧
    (setData s data).pixmap =
      some (renderWaveformPixmap [] s.beatgrid_data s.position_marker_offset) ∧
    (renderWaveformPixmap [] s.beatgrid_data s.position_marker_offset).width
      = s.position_marker_offset ∧
    (renderWaveformPixmap [] s.beatgrid_data s.position_marker_offset).ops
      = [.fill .black,
         .line 0 waveform_center s.position_marker_offset waveform_center .white] := by
  have hd : data.drop 20 = [] := List.drop_eq_nil_of_le h
  refine ⟨?_, ?_, ?_, ?_⟩
  · simp [setData, hd]
  · simp [setData, hd]
  · simp [renderWaveformPixmap]
  · simp [renderWaveformPixmap]

/-- Claim C10 witness: a 20-byte buffer on the freshly constructed
widget. -/
theorem setData_short_buffer_witness :
    (setData initState (List.replicate 20 9)).waveform_data = [] :=
  (setData_short_buffer initState (List.replicate 20 9) (by decide)).1

/-- Amplitude bars are plain lines, never filled rectangles. -/
theorem mem_barOps_not_fillRect (wd : List ℕ) (pmo : ℤ) (op : DrawOp)
    (h : op ∈ barOps wd pmo) : op.isFillRect = false := by
  simp only [barOps, List.mem_map] at h
  obtain ⟨x, -, rfl⟩ := h
  rfl

/-- With no beat grid, the composited image contains no `fillRect` at all,
hence no beat tick marks. -/
theorem render_none_no_fillRect (wd : List ℕ) (pmo : ℤ) :
    ∀ op ∈ (renderWaveformPixmap wd none pmo).ops, op.isFillRect = false := by
  intro op hop
  simp only [renderWaveformPixmap] at hop
  by_cases hwd : wd = []
  · subst hwd
    simp only [ne_eq, not_true_eq_false, if_false, List.append_nil,
      List.mem_cons, List.not_mem_nil, or_false] at hop
    rcases hop with h | h <;> (subst h; rfl)
  · simp only [ne_eq, hwd, not_false_eq_true, if_true, List.append_nil,
      List.mem_append, List.mem_cons, List.not_mem_nil, or_false] at hop
    rcases hop with (h | h) | h
    · subst h; rfl
    · subst h; rfl
    · exact mem_barOps_not_fillRect _ _ _ h

/-- Claim C3: on every beat-grid parse failure, `setBeatgridData` records
"no beat grid" (`beatgrid_data = none`), logs the failure, and returns
normally (the function is total — nothing propagates); re-rendering the
widget afterwards yields an image with no `fillRect` operation, i.e. no
beat tick marks. -/
theorem setBeatgridData_parse_failure_recovery (s : State) (msg : String) :
    (setBeatgridData s (.error msg)).1.beatgrid_data = none ∧
    (setBeatgridData s (.error msg)).2 = true ∧
    (∀ op ∈ (renderWaveformPixmap s.waveform_data none s.position_marker_offset).ops,
      op.isFillRect = false) ∧
    (s.waveform_data ≠ [] →
      (setBeatgridData s (.error msg)).1.pixmap =
        some (renderWaveformPixmap s.waveform_data none s.position_marker_offset)) ∧
    (s.waveform_data = [] →
      (setBeatgridData s (.error msg)).1.pixmap = s.pixmap) := by
  have key : setBeatgridData s (.error msg)
      = (if s.waveform_data ≠ [] then
          { s with beatgrid_data := none,
                   pixmap := some (renderWaveformPixmap s.waveform_data none
                                     s.position_marker_offset) }
         else { s with beatgrid_data := none }, true) := rfl
  rw [key]
  refine ⟨?_, rfl, render_none_no_fillRect s.waveform_data s.position_marker_offset, ?_, ?_⟩
  · split
    · rfl
    · rfl
  · intro hwd
    rw [if_pos hwd]
  · intro hwd
    rw [if_neg (not_not_intro hwd)]

/-- Claim C3 witness: a failing parse on a widget that already holds one
decoded sample. -/
theorem setBeatgridData_parse_failure_recovery_witness :
    (setBeatgridData (setData initState (List.replicate 21 3)) (.error "oops")).1.pixmap =
      some (renderWaveformPixmap (setData initState (List.replicate 21 3)).waveform_data none
        (setData initState (List.replicate 21 3)).position_marker_offset) :=
  (setBeatgridData_parse_failure_recovery
    (setData initState (List.replicate 21 3)) "oops").2.2.2.1 (by decide)

/-- Claim C9: a refresh-timer tick mutates only the scroll offset (by 5)
and leaves the composited image — and every other field — unchanged;
`setData` rebuilds the composited image from the new samples; and
`setBeatgridData` rebuilds it exactly when samples are present, leaving
the image untouched otherwise. -/
theorem recomposition_triggers (s : State) (data : List ℕ) (g : Beatgrid)
    (msg : String) :
    ((timerEvent s).1.pixmap = s.pixmap ∧
     (timerEvent s).1.waveform_data = s.waveform_data ∧
     (timerEvent s).1.beatgrid_data = s.beatgrid_data ∧
     (timerEvent s).1.position_marker = s.position_marker ∧
     (timerEvent s).1.frames = s.frames ∧
     (timerEvent s).1.position_marker_offset = s.position_marker_offset ∧
     (timerEvent s).1.offset = s.offset + 5 ∧
     (timerEvent s).2 = true) ∧
    ((setData s data).pixmap =
      some (renderWaveformPixmap (data.drop 20) s.beatgrid_data s.position_marker_offset)) ∧
    (s.waveform_data ≠ [] →
      (setBeatgridData s (.ok g)).1.pixmap =
        some (renderWaveformPixmap s.waveform_data (some g) s.position_marker_offset)) ∧
    (s.waveform_data = [] →
      (setBeatgridData s (.ok g)).1.pixmap = s.pixmap ∧
      (setBeatgridData s (.error msg)).1.pixmap = s.pixmap) := by
  have h5 : pyInt ((142 : ℚ) * (4 / 100)) = 5 := by
    rw [pyInt_eq_floor _ (by norm_num), Int.floor_eq_iff]
    norm_num
  have kok : setBeatgridData s (.ok g)
      = (if s.waveform_data ≠ [] then
          { s with beatgrid_data := some g,
                   pixmap := some (renderWaveformPixmap s.waveform_data (some g)
                                     s.position_marker_offset) }
         else { s with beatgrid_data := some g }, false) := rfl
  have kerr : setBeatgridData s (.error msg)
      = (if s.waveform_data ≠ [] then
          { s with beatgrid_data := none,
                   pixmap := some (renderWaveformPixmap s.waveform_data none
                                     s.position_marker_offset) }
         else { s with beatgrid_data := none }, true) := rfl
  refine ⟨⟨rfl, rfl, rfl, rfl, rfl, rfl, by simp [timerEvent, h5], rfl⟩, rfl, ?_, ?_⟩
  · intro hwd
    rw [kok]
    simp [hwd]
  · intro hwd
    rw [kok, kerr]
    simp [hwd]

/-- Claim C9 witness: on the freshly constructed widget (no samples yet),
a new beat grid leaves the composited image untouched. -/
theorem recomposition_triggers_witness :
    (setBeatgridData initState (.ok ⟨[]⟩)).1.pixmap = initState.pixmap ∧
    (setBeatgridData initState (.error "bad")).1.pixmap = initState.pixmap :=
  (recomposition_triggers initState [] ⟨[]⟩ "bad").2.2.2 rfl

/-- Claim C5 counterexample: after `setFrameCount(3)` on the fresh widget
(`position_marker = 0.5`), the code stores
`int(0.5*3) = 1`, while `round(0.5*3) = 2` — the derived offset is the
truncation, not the rounding, of `positionMarkerRelative *
visibleSampleCount`. -/
theorem position_marker_round_counterexample :
    (setFrameCount initState 3).position_marker = 1/2 ∧
    (setFrameCount initState 3).frames = 3 ∧
    (setFrameCount initState 3).position_marker_offset = 1 ∧
    round ((1/2 : ℚ) * ((3 : ℤ) : ℚ)) = 2 ∧
    (setFrameCount initState 3).position_marker_offset ≠
      round ((setFrameCount initState 3).position_marker *
        ((setFrameCount initState 3).frames : ℚ)) := by
  have h1 : pyInt ((1/2 : ℚ) * ((3 : ℤ) : ℚ)) = 1 := by
    rw [pyInt_eq_floor _ (by norm_num), Int.floor_eq_iff]
    norm_num
  have h2 : round ((1/2 : ℚ) * ((3 : ℤ) : ℚ)) = 2 := by
    rw [round_eq, Int.floor_eq_iff]
    norm_num
  refine ⟨rfl, rfl, h1, h2, ?_⟩
  show pyInt ((1/2 : ℚ) * ((3 : ℤ) : ℚ)) ≠ round ((1/2 : ℚ) * ((3 : ℤ) : ℚ))
  rw [h1, h2]
  decide

/-- Claim C5 as amended: `positionMarkerOffsetSamples` equals the
*truncation* `int(positionMarkerRelative * visibleSampleCount)` — the
floor, for the non-negative values that occur — and it is recomputed by
both `setFrameCount` (from the stored relative position) and
`setPositionMarkerOffset` (from the stored frame count). -/
theorem position_marker_offset_truncates (s : State) (frames : ℤ) (relative : ℚ)
    (hpm : 0 ≤ s.position_marker) (hfr : 0 ≤ frames)
    (hrel : 0 ≤ relative) (hsf : 0 ≤ s.frames) :
    (setFrameCount s frames).position_marker_offset
      = ⌊s.position_marker * (frames : ℚ)⌋ ∧
    (setFrameCount s frames).frames = frames ∧
    (setFrameCount s frames).position_marker = s.position_marker ∧
    (setPositionMarkerOffset s relative).position_marker_offset
      = ⌊relative * (s.frames : ℚ)⌋ ∧
    (setPositionMarkerOffset s relative).position_marker = relative ∧
    (setPositionMarkerOffset s relative).frames = s.frames := by
  refine ⟨?_, rfl, rfl, ?_, rfl, rfl⟩
  · exact pyInt_eq_floor _ (mul_nonneg hpm (by exact_mod_cast hfr))
  · exact pyInt_eq_floor _ (mul_nonneg hrel (by exact_mod_cast hsf))

/-- Claim C5 witness: the fresh widget with frame count 1500. -/
theorem position_marker_offset_truncates_witness :
    (setFrameCount initState 1500).position_marker_offset
      = ⌊initState.position_marker * ((1500 : ℤ) : ℚ)⌋ :=
  (position_marker_offset_truncates initState 1500 0
    (le_of_lt one_half_pos) (by decide) (le_refl 0) (by decide)).1

/-- Claim C6 counterexample: a timer tick advances the scroll offset by
`int(142*0.04) = 5`, not by `round(142*0.04) = 6` as the claim states. -/
theorem timer_scroll_round_counterexample :
    (timerEvent initState).1.offset = initState.offset + 5 ∧
    round ((142 : ℚ) * (4 / 100)) = 6 ∧
    (timerEvent initState).1.offset ≠
      initState.offset + round ((142 : ℚ) * (4 / 100)) := by
  have h5 : pyInt ((142 : ℚ) * (4 / 100)) = 5 := by
    rw [pyInt_eq_floor _ (by norm_num), Int.floor_eq_iff]
    norm_num
  have h6 : round ((142 : ℚ) * (4 / 100)) = 6 := by
    rw [round_eq, Int.floor_eq_iff]
    norm_num
  refine ⟨?_, h6, ?_⟩
  · show initState.offset + pyInt ((142 : ℚ) * (4 / 100)) = initState.offset + 5
    rw [h5]
  · show initState.offset + pyInt ((142 : ℚ) * (4 / 100)) ≠
      initState.offset + round ((142 : ℚ) * (4 / 100))
    rw [h5, h6]
    omega

/-- Claim C6 as amended: each tick of the 40 ms refresh timer advances the
scroll offset by exactly `int(142*0.04) = 5` (truncation of the 142
units/s reference rate times the 0.04 s tick) and requests a redraw. -/
theorem timer_scroll_increment (s : State) :
    timerInterval = 40 ∧
    (timerEvent s).1.offset = s.offset + pyInt ((142 : ℚ) * (4 / 100)) ∧
    pyInt ((142 : ℚ) * (4 / 100)) = 5 ∧
    (timerEvent s).2 = true := by
  have h5 : pyInt ((142 : ℚ) * (4 / 100)) = 5 := by
    rw [pyInt_eq_floor _ (by norm_num), Int.floor_eq_iff]
    norm_num
  exact ⟨rfl, rfl, h5, rfl⟩

/-- Claim C7 counterexample: with relative progress `3/800`, the code
places the cached marker at `int(400*(3/800)) = 1`, while
`round(400*(3/800)) = 2` — the marker is the truncation, not the
rounding, of `400 * relativeProgress`. -/
theorem setProgress_round_counterexample :
    (setProgress 0 (3 / 800)).1 = 1 ∧
    round ((400 : ℚ) * (3 / 800)) = 2 ∧
    (setProgress 0 (3 / 800)).1 ≠ round ((400 : ℚ) * (3 / 800)) := by
  have h1 : pyInt ((400 : ℚ) * (3 / 800)) = 1 := by
    rw [pyInt_eq_floor _ (by norm_num), Int.floor_eq_iff]
    norm_num
  have h2 : round ((400 : ℚ) * (3 / 800)) = 2 := by
    rw [round_eq, Int.floor_eq_iff]
    norm_num
  have e : setProgress 0 (3 / 800)
      = if pyInt ((400 : ℚ) * (3 / 800)) ≠ 0
        then (pyInt ((400 : ℚ) * (3 / 800)), true) else (0, false) := rfl
  rw [h1] at e
  norm_num at e
  rw [e, h2]
  exact ⟨rfl, rfl, by decide⟩

/-- Claim C7 as amended: `setProgress(p)` places the cached marker at the
*truncation* `int(400*p)` (the floor, for `p ≥ 0`); a repeated call with
the same relative value triggers no second redraw, and the marker moves
monotonically right as the relative value increases. -/
theorem setProgress_truncates_debounces (pos : ℤ) (p q : ℚ)
    (h0 : 0 ≤ p) (hpq : p ≤ q) :
    (setProgress pos p).1 = pyInt ((400 : ℚ) * p) ∧
    pyInt ((400 : ℚ) * p) = ⌊(400 : ℚ) * p⌋ ∧
    (setProgress (setProgress pos p).1 p).2 = false ∧
    (setProgress (setProgress pos p).1 p).1 = (setProgress pos p).1 ∧
    pyInt ((400 : ℚ) * p) ≤ pyInt ((400 : ℚ) * q) := by
  have hfirst : (setProgress pos p).1 = pyInt ((400 : ℚ) * p) := by
    rw [setProgress]
    split
    · rfl
    · rename_i hne
      exact (not_not.mp hne).symm
  have e2 : setProgress (pyInt ((400 : ℚ) * p)) p
      = (pyInt ((400 : ℚ) * p), false) := by
    simp only [setProgress]
    rw [if_neg (not_not_intro rfl)]
  refine ⟨hfirst, pyInt_eq_floor _ (mul_nonneg (by norm_num) h0), ?_, ?_, ?_⟩
  · rw [hfirst, e2]
  · rw [hfirst, e2]
  · rw [pyInt_eq_floor _ (mul_nonneg (by norm_num) h0),
        pyInt_eq_floor _ (mul_nonneg (by norm_num) (le_trans h0 hpq))]
    exact Int.floor_le_floor (by nlinarith)

/-- Claim C7 witness: relative progress 0 then 1 from marker position 7. -/
theorem setProgress_truncates_debounces_witness :
    (setProgress 7 0).1 = pyInt ((400 : ℚ) * 0) ∧
    pyInt ((400 : ℚ) * 0) = ⌊(400 : ℚ) * 0⌋ ∧
    (setProgress (setProgress 7 0).1 0).2 = false ∧
    (setProgress (setProgress 7 0).1 0).1 = (setProgress 7 0).1 ∧
    pyInt ((400 : ℚ) * 0) ≤ pyInt ((400 : ℚ) * 1) :=
  setProgress_truncates_debounces 7 0 1 (le_refl 0) zero_le_one

/-- Claim C4 counterexample: a 799-byte preview buffer does *not* produce
"no visual output" — the pixmap still receives the black background fill
and the fixed white base line at `y = 33`; only the bars are skipped. -/
theorem preview_short_buffer_counterexample :
    DrawOp.line 0 33 399 33 .white
      ∈ (drawPreviewWaveformPixmap (some (List.replicate 799 0))).ops ∧
    DrawOp.fill .black
      ∈ (drawPreviewWaveformPixmap (some (List.replicate 799 0))).ops ∧
    (drawPreviewWaveformPixmap (some (List.replicate 799 0))).ops ≠ [] := by
  have hguard : ¬((List.replicate 799 (0 : ℕ)) ≠ [] ∧
      400 * 2 ≤ (List.replicate 799 (0 : ℕ)).length) := by
    intro hc
    rw [List.length_replicate] at hc
    omega
  simp only [drawPreviewWaveformPixmap]
  rw [if_neg hguard]
  refine ⟨?_, ?_, ?_⟩ <;> simp

/-- Claim C4 as amended: for every preview buffer shorter than 800 bytes
(fewer than 400 two-byte samples), *bar* rendering is skipped entirely —
the pixmap contains only the black background and the white base line;
for a buffer of exactly 800 bytes, exactly 400 vertical bars are drawn,
bar `x` rising from `y = 31` by its height value `data[2x]` and colored
with color level `data[2x+1]` pre-incremented by 1. -/
theorem preview_guard_and_bars (d : List ℕ) :
    (d.length < 800 →
      (drawPreviewWaveformPixmap (some d)).ops
        = [.fill .black, .line 0 33 399 33 .white]) ∧
    (drawPreviewWaveformPixmap none).ops
      = [.fill .black, .line 0 33 399 33 .white] ∧
    (d.length = 800 →
      (drawPreviewWaveformPixmap (some d)).ops
        = [.fill .black] ++ previewBarOps d ++ [.line 0 33 399 33 .white] ∧
      (previewBarOps d).length = 400 ∧
      ∀ x, x < 400 →
        (previewBarOps d)[x]?
          = some (.line x 31 x ((31 : ℤ) - ((d.getD (2*x) 0 : ℕ) : ℤ))
              (.rgb (36 * (d.getD (2*x+1) 0 + 1)) (36 * (d.getD (2*x+1) 0 + 1)) 255))) := by
  refine ⟨?_, rfl, ?_⟩
  · intro hlen
    simp only [drawPreviewWaveformPixmap]
    rw [if_neg (by omega : ¬(d ≠ [] ∧ 400 * 2 ≤ d.length))]
    rfl
  · intro h800
    have hne : d ≠ [] := by
      intro he
      rw [he] at h800
      simp at h800
    refine ⟨?_, by simp only [previewBarOps, List.length_map, List.length_range], ?_⟩
    · simp only [drawPreviewWaveformPixmap]
      rw [if_pos ⟨hne, by omega⟩]
    · intro x hx
      rw [previewBarOps, List.getElem?_map, List.getElem?_range hx, Option.map_some']
      push_cast
      rfl

/-- Claim C4 witness: a buffer of exactly 800 bytes yields exactly 400
bars. -/
theorem preview_guard_and_bars_witness :
    (drawPreviewWaveformPixmap (some (List.replicate 800 3))).ops
      = [.fill .black] ++ previewBarOps (List.replicate 800 3) ++ [.line 0 33 399 33 .white] ∧
    (previewBarOps (List.replicate 800 3)).length = 400 :=
  ⟨((preview_guard_and_bars (List.replicate 800 3)).2.2 (List.length_replicate 800 3)).1,
   ((preview_guard_and_bars (List.replicate 800 3)).2.2 (List.length_replicate 800 3)).2.1⟩

/-- Claim C8: the phrase indicator always draws four outlined boxes; when
the beat value is in 1–4 exactly that box is filled (box `beat`, at
`draw_x = (beat-1)*(box_width+6)`), and for 0 or any value outside 1–4 no
box is filled. -/
theorem beatBar_fill_selection (w h beat : ℤ) :
    (paintOps w h beat).countP DrawOp.isRect = 4 ∧
    (1 ≤ beat → beat ≤ 4 →
      (paintOps w h beat).countP DrawOp.isFillRect = 1 ∧
      DrawOp.fillRect ((beat - 1) * ((w - 1 - 3 * 6).fdiv 4 + 6)) 0
          ((w - 1 - 3 * 6).fdiv 4) (h - 1) .yellow
        ∈ paintOps w h beat) ∧
    ((beat < 1 ∨ 4 < beat) →
      (paintOps w h beat).countP DrawOp.isFillRect = 0) := by
  have hr : List.range 4 = [0, 1, 2, 3] := rfl
  refine ⟨?_, ?_, ?_⟩
  · simp only [paintOps, hr, List.flatMap_cons, List.flatMap_nil, List.append_nil]
    split_ifs <;> rfl
  · intro hlo hhi
    interval_cases beat <;>
      · simp only [paintOps, hr, List.flatMap_cons, List.flatMap_nil, List.append_nil]
        norm_num [List.mem_append, List.mem_cons, List.countP_cons, List.countP_nil,
          List.countP_append, DrawOp.isFillRect, DrawOp.isRect]
  · intro hout
    simp only [paintOps, hr, List.flatMap_cons, List.flatMap_nil, List.append_nil]
    split_ifs <;> first
      | rfl
      | (exfalso; omega)

/-- Claim C8 witness: on a 100×12 widget, beat 3 fills exactly one box,
the third. -/
theorem beatBar_fill_selection_witness :
    (paintOps 100 12 3).countP DrawOp.isFillRect = 1 ∧
    DrawOp.fillRect ((3 - 1) * (((100 : ℤ) - 1 - 3 * 6).fdiv 4 + 6)) 0
        (((100 : ℤ) - 1 - 3 * 6).fdiv 4) (12 - 1) .yellow
      ∈ paintOps 100 12 3 :=
  (beatBar_fill_selection 100 12 3).2.1 (by decide) (by decide)

end ProDJGui
